import Mathlib

/-!
Verification of the transfer-and-progress pipeline of the Wasabi upload bot
(`bot.py`, `config.py`).  The Python source is shallowly embedded: pure
helpers (`sanitize_filename`, `human_size`, the S3 key construction) become
Lean functions on `Nat`/`Int`/`String`; the stateful orchestration
(`file_handler`, `process_upload`, `progress_bar`) is modelled as explicit
state passing, with the outcomes of external collaborator calls (Telegram
download, message edits) supplied as oracle parameters.  Wall-clock times are
rationals.  Python exceptions are modelled with `Except`.
-/

namespace Bot

/-! ## Configuration (`config.py`)

`Config` mirrors the `Config` class: environment-sourced credentials plus
static defaults.  `API_ID` is an `int` in the source (`int(os.getenv("API_ID", 0))`),
the remaining credentials are strings defaulting to the empty string when the
environment variable is unset. -/

structure Config where
  API_ID : Nat
  API_HASH : String
  BOT_TOKEN : String
  WASABI_ACCESS_KEY : String
  WASABI_SECRET_KEY : String
  WASABI_BUCKET : String
  WASABI_REGION : String
  MAX_FILE_SIZE : Nat
  URL_EXPIRY : Nat
  DOWNLOAD_DIR : String
  MULTIPART_THRESHOLD : Nat
  MULTIPART_CHUNKSIZE : Nat
  MAX_CONCURRENCY : Nat
  PROGRESS_UPDATE_INTERVAL : Rat
deriving DecidableEq, Repr

/-- Builds the `Config` instance of `config.py` from the credential values
read from the environment; the remaining fields are the static defaults of
the `Config` class (4 GiB size cap, 24 h link expiry, 25 MiB multipart
threshold and chunk size, 10-way concurrency, 1.5 s progress interval). -/
def mkConfig (apiId : Nat) (apiHash botToken accessKey secretKey bucket : String) : Config :=
  { API_ID := apiId
    API_HASH := apiHash
    BOT_TOKEN := botToken
    WASABI_ACCESS_KEY := accessKey
    WASABI_SECRET_KEY := secretKey
    WASABI_BUCKET := bucket
    WASABI_REGION := "us-east-1"
    MAX_FILE_SIZE := 4 * 1024 * 1024 * 1024
    URL_EXPIRY := 24 * 3600
    DOWNLOAD_DIR := "downloads"
    MULTIPART_THRESHOLD := 25 * 1024 * 1024
    MULTIPART_CHUNKSIZE := 25 * 1024 * 1024
    MAX_CONCURRENCY := 10
    PROGRESS_UPDATE_INTERVAL := 3 / 2 }

/-- Config with every environment variable unset: `API_ID` falls back to `0`
and every credential string to `""` (the `os.getenv` defaults). -/
def emptyEnvConfig : Config := mkConfig 0 "" "" "" "" ""

/-! ## `WasabiUploadBot.validate_config` (bot.py lines 69-86) -/

/-- Names checked by `validate_config` (bot.py line 71-74). -/
def requiredAttrs : List String :=
  ["API_ID", "API_HASH", "BOT_TOKEN",
   "WASABI_ACCESS_KEY", "WASABI_SECRET_KEY", "WASABI_BUCKET"]

/-- Python truthiness of `getattr(config, attr, None)` for each required
attribute: `0` and `""` are falsy, an unknown attribute yields `None` (falsy). -/
def attrTruthy (c : Config) (attr : String) : Bool :=
  if attr = "API_ID" then c.API_ID ≠ 0
  else if attr = "API_HASH" then c.API_HASH ≠ ""
  else if attr = "BOT_TOKEN" then c.BOT_TOKEN ≠ ""
  else if attr = "WASABI_ACCESS_KEY" then c.WASABI_ACCESS_KEY ≠ ""
  else if attr = "WASABI_SECRET_KEY" then c.WASABI_SECRET_KEY ≠ ""
  else if attr = "WASABI_BUCKET" then c.WASABI_BUCKET ≠ ""
  else false

/-- Attributes collected in the `missing` list of `validate_config`
(bot.py lines 76-79). -/
def missingAttrs (c : Config) : List String :=
  requiredAttrs.filter (fun a => !(attrTruthy c a))

/-- Model of `validate_config` (bot.py lines 69-86): raises `ValueError` when
some required attribute is falsy, otherwise returns after creating the
download directory (a side effect irrelevant to the claims). -/
def validate_config (c : Config) : Except String Unit :=
  if missingAttrs c ≠ [] then
    .error ("Missing configuration: " ++ String.intercalate ", " (missingAttrs c))
  else
    .ok ()

/-- Possible outcomes of `asyncio.run(bot.run())` once the bot constructed
successfully: a normal return, a `KeyboardInterrupt`, or any other exception. -/
inductive RunOutcome
  | normal
  | keyboardInterrupt
  | exn (msg : String)
deriving DecidableEq, Repr

/-- Result of running `main()` (bot.py lines 410-418): whether the bot was
constructed and started, and the process exit status.  `WasabiUploadBot()`
calls `validate_config`, whose `ValueError` propagates to `main`; `main`
catches `KeyboardInterrupt` and every other `Exception`, merely logs them
(`logger.error("Fatal error: ...")`), and falls off the end, so every path
returns `None` from `main` and the interpreter exits with status 0. -/
def mainRun (c : Config) (ro : RunOutcome) : Bool × Nat :=
  match validate_config c with
  | .error _ => (false, 0)   -- caught by `except Exception as e` in main, logged, normal return
  | .ok _ =>
    match ro with
    | .normal => (true, 0)
    | .keyboardInterrupt => (true, 0)  -- caught by `except KeyboardInterrupt`, logged
    | .exn _ => (true, 0)              -- caught by `except Exception as e`, logged

/-- Whether the bot was constructed and started. -/
def botStarts (c : Config) (ro : RunOutcome) : Bool := (mainRun c ro).1

/-- Process exit status of `python bot.py`. -/
def mainExitStatus (c : Config) (ro : RunOutcome) : Nat := (mainRun c ro).2

/-! ## `WasabiUploadBot.human_size` (bot.py lines 109-118)

The source computes `i = int(math.floor(math.log(size_bytes, 1024)))` and
`s = round(size_bytes / 1024**i, 2)` with binary floats and renders
`f"{s} {size_name[i]}"`.  For a positive integer argument `math.floor(math.log
(n, 1024))` is `Nat.log 1024 n` and the rounded quotient is modelled exactly
with integer arithmetic (Python's `round` rounds halves to even; float
artifacts at exact-power boundaries are not exercised by any claim).  For
`size_bytes = 0` the `if not size_bytes` guard returns `"0B"`; for a negative
argument the guard is false and `math.log` raises `ValueError: math domain
error`; for `size_bytes ≥ 1024^6` the tuple index `size_name[i]` raises
`IndexError`. -/

/-- The `size_name` tuple of `human_size`. -/
def sizeNames : List String := ["B", "KB", "MB", "GB", "TB", "PB"]

/-- Fuelled base-1024 logarithm: `log1024 fuel n` is the number of times `n`
can be divided by 1024 before dropping below 1024.  For `1 ≤ n ≤ fuel` this
is `int(math.floor(math.log(n, 1024)))`. -/
def log1024 : Nat → Nat → Nat
  | 0, _ => 0
  | fuel + 1, n => if n < 1024 then 0 else log1024 fuel (n / 1024) + 1

/-- Rounds `a / b` (with `b > 0`) to the nearest integer, halves to even:
the behaviour of Python's `round` on the exact quotient. -/
def roundHalfEvenDiv (a b : Nat) : Nat :=
  let q := a / b
  let r := a % b
  if 2 * r < b then q
  else if b < 2 * r then q + 1
  else if q % 2 = 0 then q else q + 1

/-- Renders a number of hundredths the way Python's float repr renders
`round(x, 2)`: always at least one fractional digit, trailing zero of the
second digit dropped (`150` ↦ `"1.5"`, `300` ↦ `"3.0"`, `125` ↦ `"1.25"`,
`5` ↦ `"0.05"`). -/
def formatCents (cents : Nat) : String :=
  let ip := cents / 100
  let fr := cents % 100
  if fr = 0 then toString ip ++ ".0"
  else if fr % 10 = 0 then toString ip ++ "." ++ toString (fr / 10)
  else if fr < 10 then toString ip ++ ".0" ++ toString fr
  else toString ip ++ "." ++ toString fr

/-- Model of `human_size` (bot.py lines 109-118). -/
def human_size (size_bytes : Int) : Except String String :=
  if size_bytes = 0 then .ok "0B"
  else if size_bytes < 0 then
    .error "math domain error"
  else
    let n := size_bytes.toNat
    let i := log1024 n n
    match sizeNames.get? i with
    | none => .error "tuple index out of range"
    | some unit =>
      let cents := roundHalfEvenDiv (n * 100) (1024 ^ i)
      .ok (formatCents cents ++ " " ++ unit)

/-! ## `WasabiUploadBot.sanitize_filename` (bot.py lines 88-107) -/

/-- Splits a character list at every occurrence of `sep`, keeping empty
pieces (the semantics of splitting a POSIX path at `/`). -/
def splitOnChar (sep : Char) : List Char → List (List Char)
  | [] => [[]]
  | c :: rest =>
    let r := splitOnChar sep rest
    if c = sep then [] :: r
    else
      match r with
      | h :: t => (c :: h) :: t
      | [] => [[c]]

/-- Model of `pathlib.Path(s).name` on POSIX: the last path component.
`pathlib` drops empty components and single-dot components while parsing but
keeps `".."` components, and `name` is the last remaining component (or `""`
when none is left, e.g. for `"/"`, `"."` or `""`). -/
def posixPathName (s : String) : String :=
  let comps := (splitOnChar '/' s.data).filter (fun c => decide (c ≠ [] ∧ c ≠ ['.']))
  String.mk ((comps.getLast?).getD [])

/-- A character matching Python's regex class `[\w\-.@() ]` (ASCII range):
the characters kept by `re.sub(r'[^\w\-.@() ]', '', filename)` at bot.py
line 97.  (`\w` additionally matches non-ASCII word characters; the model
covers ASCII inputs, which is all the claims exercise.) -/
def isSafeChar (c : Char) : Bool :=
  c.isAlphanum || c = '_' || c = '-' || c = '.' || c = '@' || c = '(' || c = ')' || c = ' '

/-- Model of `os.path.splitext` on a basename (no directory separator): the
extension starts at the last dot, provided some earlier character of the
name is not a dot (CPython's genericpath `_splitext`: leading dots do not
start an extension). -/
def splitext (cs : List Char) : List Char × List Char :=
  match ((List.range cs.length).filter (fun i => decide (cs.get? i = some '.'))).getLast? with
  | none => (cs, [])
  | some d =>
    if (List.range d).any (fun i => decide (cs.get? i ≠ some '.')) then
      (cs.take d, cs.drop d)
    else
      (cs, [])

/-- Model of `sanitize_filename` (bot.py lines 88-107).  `ts` stands for
`int(time.time())`, used for the generated fallback name. -/
def sanitize_filename (ts : Nat) (filename : String) : String :=
  if filename = "" then "file_" ++ toString ts
  else
    -- line 94: filename = Path(filename).name
    let name := posixPathName filename
    -- line 97: safe_chars = re.sub(r'[^\w\-.@() ]', '', filename)
    let safe1 := name.data.filter isSafeChar
    -- line 100: safe_chars = safe_chars.replace(' ', '_')
    let safe2 := safe1.map (fun c => if c = ' ' then '_' else c)
    -- lines 103-105: truncate to 255 keeping the extension
    let safe3 :=
      if safe2.length > 255 then
        let p := splitext safe2
        p.1.take 250 ++ p.2
      else safe2
    -- line 107: safe_chars if safe_chars else f"file_{int(time.time())}"
    if safe3.isEmpty then "file_" ++ toString ts else String.mk safe3

/-- Whether `s` contains `".."` as a substring. -/
def hasDotDot (s : String) : Bool :=
  let cs := s.data
  (List.range cs.length).any
    (fun i => decide (cs.get? i = some '.' ∧ cs.get? (i + 1) = some '.'))

/-- Whether `s` contains a POSIX path separator. -/
def hasPathSep (s : String) : Bool := s.data.any (fun c => c = '/')

/-- Whether `s` is an absolute POSIX path. -/
def isAbsolutePath (s : String) : Bool :=
  match s.data with
  | [] => false
  | c :: _ => c = '/'

/-! ## The object key of `process_upload` (bot.py lines 322-323)

`s3_key = f"{user_id}/{int(time.time())}_{safe_filename}"`. -/

/-- The object key built at bot.py line 323 from the requesting user's id,
the integer second at which the key is built, and the sanitized filename. -/
def s3_key (user_id ts : Nat) (safe_filename : String) : String :=
  toString user_id ++ "/" ++ toString ts ++ "_" ++ safe_filename

/-- One upload attempt as observed at the key-construction site: the owner,
the integer timestamp at key construction, the sanitized filename, and a
serial number distinguishing distinct attempts that share the other three
fields. -/
structure UploadAttempt where
  user_id : Nat
  ts : Nat
  safe_filename : String
  attempt_id : Nat
deriving DecidableEq, Repr

/-- The object key produced for an attempt (bot.py line 323): the serial
number of the attempt does not enter the key. -/
def attemptKey (a : UploadAttempt) : String := s3_key a.user_id a.ts a.safe_filename

/-- Numeric value of a most-significant-first decimal digit string; used to
show that the decimal renderings inside `s3_key` are injective. -/
def decVal (cs : List Char) : Nat :=
  cs.foldl (fun a c => 10 * a + (c.toNat - 48)) 0

/-! ## `WasabiUploadBot.progress_bar` (bot.py lines 120-170)

The callback tries to keep a dictionary `self.progress_bar.last_update`
mapping a chat id to the time of the last update attempt that passed the
throttle (bot.py lines 131-142).  However `self.progress_bar` evaluates to a
*fresh bound-method object* on every attribute access: such an object never
carries a `last_update` attribute, so the `hasattr` test at line 131 is false
on every call, and the attribute assignment at line 132
(`self.progress_bar.last_update = {}`) raises `AttributeError` — Python
`method` objects have no instance dictionary and reject attribute
assignment.  That exception is caught by the catch-all at lines 169-170 and
merely logged, so every call returns before the throttle check at lines
138-140 and before the `status_msg.edit_text` at line 165: the program never
records a timestamp and never attempts an edit.  The intended throttle logic
of lines 134-165 is modelled below as `progress_bar_body`, which the guard
makes unreachable. -/

/-- Result of one `progress_bar` call: the updated `last_update` map, whether
the call passed the throttle and attempted the edit, and whether the edit
was actually delivered. -/
structure PBResult where
  last_update : Nat → Rat
  attempted : Bool
  pushed : Bool

/-- Line 131: `hasattr(self.progress_bar, 'last_update')`.  Each access to
`self.progress_bar` builds a fresh bound-method object, and the assignment at
line 132 never succeeds, so no such object ever has the attribute: the test
is false on every call. -/
def progressBarMethodHasLastUpdate : Bool := false

/-- Line 132: whether `self.progress_bar.last_update = {}` succeeds.  It does
not: Python `method` objects reject attribute assignment, so the statement
raises `AttributeError` instead of storing the dictionary. -/
def progressBarAttrAssignmentSucceeds : Bool := false

/-- Lines 134-165 as written: the throttle against the recorded timestamp and
the `status_msg.edit_text` push (failures of the edit are caught at lines
167-170).  In the program this code is unreachable: line 132 raises first. -/
def progress_bar_body (last_update : Nat → Rat) (chat_id : Nat) (now : Rat)
    (current total : Nat) (editOk : Bool) : PBResult :=
  -- lines 138-140: rate limit
  if now - last_update chat_id < 3 / 2 ∧ current ≠ total then
    { last_update := last_update, attempted := false, pushed := false }
  else
    -- line 142: self.progress_bar.last_update[chat_id] = now
    -- line 165: await status_msg.edit_text(progress_text), failures caught at 167-170
    { last_update := fun c => if c = chat_id then now else last_update c
      attempted := true
      pushed := editOk }

/-- Model of one invocation of `progress_bar` (bot.py lines 129-170).
`editOk` is the outcome of the `status_msg.edit_text` collaborator call. -/
def progress_bar (last_update : Nat → Rat) (chat_id : Nat) (now : Rat)
    (current total : Nat) (editOk : Bool) : PBResult :=
  if progressBarMethodHasLastUpdate then
    progress_bar_body last_update chat_id now current total editOk
  else if progressBarAttrAssignmentSucceeds then
    progress_bar_body last_update chat_id now current total editOk
  else
    -- the AttributeError from line 132 propagates to the `except Exception`
    -- at line 169, is logged, and the callback returns: nothing attempted,
    -- nothing pushed, no timestamp recorded
    { last_update := last_update, attempted := false, pushed := false }

/-! ## Submission checks of `file_handler` (bot.py lines 228-254)

The handler runs synchronously up to the creation of the upload task: it
first rejects files whose declared size exceeds `config.MAX_FILE_SIZE`
(lines 236-240), then rejects owners that already have an entry in
`self.user_tasks` (lines 243-248), and only then creates the task and
registers it (lines 251-254).  `self.user_tasks` is a dict keyed by owner
id, modelled as a list of owner ids without duplicates. -/

/-- Outcome of the synchronous part of `file_handler` for one submission. -/
inductive SubmitResult
  | tooLarge
  | alreadyActive
  | accepted
deriving DecidableEq, Repr

/-- Model of bot.py lines 236-254: the declared-size check, the
concurrent-upload check, and the registration of the new task, in source
order.  Returns the reply sent to the user and the registry after the call. -/
def file_handler_check (c : Config) (user_tasks : List Nat)
    (owner : Nat) (file_size : Nat) : SubmitResult × List Nat :=
  if file_size > c.MAX_FILE_SIZE then
    (.tooLarge, user_tasks)
  else if owner ∈ user_tasks then
    (.alreadyActive, user_tasks)
  else
    (.accepted, owner :: user_tasks)

/-! ## One job run: `process_upload` inside the `file_handler` task
(bot.py lines 251-268 and 270-392)

The run is sequential within a job.  The outcomes of the external
collaborator calls are oracle inputs:

* `initialReplyFails`: the `message.reply_text("Downloading...")` at line
  299, which runs before the `try` block;
* `downloadFails`: the `client.download_media` call at lines 304-309
  (`none` means the full file was staged at `file_path`);
* `fileLeftOnFailedDownload`: whether a partial file exists at `file_path`
  when the download raised;
* `uploadEditFails`: the `status_msg.edit_text("Uploading...")` at line 316;
* `errorEditFails`: the `status_msg.edit_text("Error: ...")` at line 386
  inside the `except` handler;
* `finalEditFails`: the completion `status_msg.edit_text` at line 369.

The upload call at line 325 reads the bare name `s3_client`, which is looked
up in the locals of `process_upload`, then the module globals of bot.py,
then the builtins; the lookup is part of the model. -/

/-- Python exceptions distinguished by the model. -/
inductive PyExc
  | nameError (nm : String)
  | floodWait
  | rpcError
  | other (msg : String)
deriving DecidableEq, Repr

/-- Local variables of `process_upload` in scope at the upload call site
(bot.py line 325). -/
def processUploadLocals : List String :=
  ["self", "client", "message", "media", "user_id", "original_filename",
   "safe_filename", "user_dir", "file_path", "status_msg", "download_start",
   "download_time", "upload_start", "mime_type", "s3_key"]

/-- Module-level names bound in bot.py: the imported names (lines 1-23) and
the top-level definitions (`logger`, `WasabiUploadBot`, `main`).  No
module-level variable named `s3_client` is ever assigned. -/
def botModuleGlobals : List String :=
  ["os", "asyncio", "time", "math", "mimetypes", "re", "logging",
   "Path", "Dict", "Optional", "defaultdict",
   "Client", "filters", "idle",
   "Message", "InlineKeyboardMarkup", "InlineKeyboardButton",
   "FloodWait", "RPCError",
   "boto3", "ClientError", "TransferConfig",
   "config", "logger", "WasabiUploadBot", "main"]

/-- A representative list of Python builtin names; `s3_client` is not a
Python builtin. -/
def pythonBuiltins : List String :=
  ["abs", "dict", "enumerate", "int", "float", "str", "len", "list", "print",
   "range", "open", "getattr", "setattr", "isinstance", "type", "round",
   "min", "max", "sum", "Exception", "ValueError", "KeyboardInterrupt"]

/-- Name resolution at the upload call site: locals, then module globals,
then builtins (the LEGB rule; `process_upload` has no enclosing function
scope). -/
def resolvesAtUploadSite (nm : String) : Bool :=
  nm ∈ processUploadLocals || nm ∈ botModuleGlobals || nm ∈ pythonBuiltins

/-- Phases of a job; `linkIssued` corresponds to the presigned URL having
been generated (bot.py lines 343-351), `completed` to the success summary
having been posted. -/
inductive Phase
  | downloading
  | uploading
  | linkIssued
  | completed
  | failed
deriving DecidableEq, Repr

/-- The per-user status record created at bot.py lines 289-296.  Times are
rationals; `start_time` is the wall-clock time at record creation. -/
structure Status where
  filename : String
  file_path : String
  progress : Rat
  speed : String
  elapsed : Rat
  start_time : Rat
deriving DecidableEq, Repr

/-- The record written by `self.user_status[user_id] = {...}` at lines
289-296: progress 0, speed "0B/s", elapsed 0. -/
def initStatus (safe_filename file_path : String) (startTime : Rat) : Status :=
  { filename := safe_filename
    file_path := file_path
    progress := 0
    speed := "0B/s"
    elapsed := 0
    start_time := startTime }

/-- Oracle for the external calls of one job run. -/
structure JobEnv where
  initialReplyFails : Bool
  downloadFails : Option PyExc
  fileLeftOnFailedDownload : Bool
  uploadEditFails : Option PyExc
  errorEditFails : Option PyExc
  finalEditFails : Option PyExc
deriving DecidableEq, Repr

/-- A run of every collaborator call succeeding. -/
def allOkEnv : JobEnv :=
  { initialReplyFails := false
    downloadFails := none
    fileLeftOnFailedDownload := false
    uploadEditFails := none
    errorEditFails := none
    finalEditFails := none }

/-- Observable outcome of one `process_upload` run: the value or exception
of the coroutine, the final phase, whether the staging file is still on disk
when the coroutine exits, how many times `os.remove(file_path)` ran, the
successive values of the owner's status record while the job was in flight,
and how many times the `elapsed` field was assigned after initialization. -/
structure UploadOutcome where
  result : Except PyExc Unit
  phaseReached : Phase
  fileOnDisk : Bool
  fileRemovals : Nat
  statusHistory : List Status
  elapsedWrites : Nat
deriving Repr

/-- The `except Exception` handler of `process_upload` (bot.py lines
384-392): it first edits the status message to report the error; if that
edit itself raises, the `os.remove` cleanup below it never runs and the new
exception propagates.  Otherwise the partial file is removed if present and
the original exception is re-raised.  `prevRemovals` counts `os.remove`
calls made before the handler ran. -/
def exceptHandler (env : JobEnv) (e : PyExc) (onDisk : Bool)
    (hist : List Status) (ew prevRemovals : Nat) : UploadOutcome :=
  match env.errorEditFails with
  | some e2 =>
    { result := .error e2
      phaseReached := .failed
      fileOnDisk := onDisk
      fileRemovals := prevRemovals
      statusHistory := hist
      elapsedWrites := ew }
  | none =>
    { result := .error e
      phaseReached := .failed
      fileOnDisk := false
      fileRemovals := prevRemovals + (if onDisk then 1 else 0)
      statusHistory := hist
      elapsedWrites := ew }

/-- Model of `process_upload` (bot.py lines 270-392).  `startTime` is the
wall-clock time at which the status record is created and `dlTime` the
elapsed download time written at line 313.  The phases walked through are
Downloading (from the record creation), Uploading (from the line 316 edit),
LinkIssued (after the presigned URL at lines 343-351) and Completed (after
the success summary) — except that reaching the upload call evaluates the
unbound name `s3_client`. -/
def process_upload (env : JobEnv) (startTime dlTime : Rat)
    (safe_filename file_path : String) : UploadOutcome :=
  let st0 := initStatus safe_filename file_path startTime
  -- line 299: status_msg = await message.reply_text(...) — before the try block,
  -- so a failure here propagates without running the except handler
  if env.initialReplyFails then
    { result := .error (.other "reply_text failed")
      phaseReached := .downloading
      fileOnDisk := false
      fileRemovals := 0
      statusHistory := [st0]
      elapsedWrites := 0 }
  else
    match env.downloadFails with
    | some e =>
      -- lines 304-309 raised; partial file may or may not be on disk
      exceptHandler env e env.fileLeftOnFailedDownload [st0] 0 0
    | none =>
      -- download completed: staged file exists, elapsed written (line 313)
      let st1 := { st0 with elapsed := dlTime }
      let hist := [st0, st1]
      match env.uploadEditFails with
      | some e => exceptHandler env e true hist 1 0
      | none =>
        -- line 325: `s3_client.upload_file(...)` — evaluate the name `s3_client`
        if resolvesAtUploadSite "s3_client" then
          -- continuation as written (lines 325-382): upload, presign,
          -- remove the staging file, post the summary
          match env.finalEditFails with
          | some e2 => exceptHandler env e2 false hist 1 1
          | none =>
            { result := .ok ()
              phaseReached := .completed
              fileOnDisk := false
              fileRemovals := 1
              statusHistory := hist
              elapsedWrites := 1 }
        else
          exceptHandler env (.nameError "s3_client") true hist 1 0

/-- Outcome of the whole `file_handler` task (bot.py lines 251-268): after
awaiting `process_upload`, the `finally` block deletes the owner's
`user_tasks` entry and `user_status` entry when present.  In a run without a
concurrent `/cancel`, both entries are present at the `finally`, so each is
deleted exactly once. -/
structure HandlerOutcome where
  upload : UploadOutcome
  taskRemovals : Nat
  statusRemovals : Nat
deriving Repr

/-- Model of awaiting the upload task inside `file_handler` (bot.py lines
256-268), without a concurrent cancellation. -/
def file_handler_run (env : JobEnv) (startTime dlTime : Rat)
    (safe_filename file_path : String) : HandlerOutcome :=
  let r := process_upload env startTime dlTime safe_filename file_path
  { upload := r, taskRemovals := 1, statusRemovals := 1 }

/-! ## `cancel_handler` (bot.py lines 192-209) and `status_handler`
(bot.py lines 211-226) -/

/-- State touched by `cancel_handler`: the task registry, the status map
(modelled as the optional record of the queried owner), and whether the
owner's staging file exists on disk. -/
structure CancelState where
  user_tasks : List Nat
  user_status : Option Status
  fileOnDisk : Bool
deriving DecidableEq, Repr

/-- Model of `cancel_handler` for one owner (bot.py lines 192-209): when the
owner has an active task the task is cancelled, the registry entry and the
status entry are deleted, and the staging file recorded in the status entry
is removed if it exists.  Returns whether a cancellation was signalled,
together with the new state and the number of `os.remove` calls. -/
def cancel_handler (st : CancelState) (owner : Nat) : Bool × CancelState × Nat :=
  if owner ∈ st.user_tasks then
    let removals := if st.fileOnDisk then 1 else 0
    (true,
     { user_tasks := st.user_tasks.filter (fun u => u ≠ owner)
       user_status := none
       fileOnDisk := false },
     removals)
  else
    (false, st, 0)

/-- Python's float format `f"{x:.1f}"` for the non-negative rationals that
occur in the status record: one fractional digit, halves to even. -/
def formatOneDec (q : Rat) : String :=
  let tenths := roundHalfEvenDiv (q.num.toNat * 10) q.den
  toString (tenths / 10) ++ "." ++ toString (tenths % 10)

/-- The reply rendered by `status_handler` (bot.py lines 215-224) from the
owner's status record.  Note the record's `speed` field already carries the
"/s" suffix from initialization, and the handler appends another "/s". -/
def status_text (st : Status) : String :=
  "**Upload Status:**\n" ++
  "File: `" ++ st.filename ++ "`\n" ++
  "Progress: `" ++ formatOneDec st.progress ++ "%`\n" ++
  "Speed: `" ++ st.speed ++ "/s`\n" ++
  "Elapsed: `" ++ formatOneDec st.elapsed ++ "s`"

/-- The job environment refuting C2: the download succeeds, the upload step
fails (as it always does, with the `s3_client` NameError), and the
`status_msg.edit_text` *inside the except handler* raises a transient
rate-limit error. -/
def C2FailingEnv : JobEnv :=
  { initialReplyFails := false
    downloadFails := none
    fileLeftOnFailedDownload := false
    uploadEditFails := none
    errorEditFails := some .floodWait
    finalEditFails := none }

/-! ## Sanity checks against the Python behaviour -/

example : human_size 0 = .ok "0B" := rfl
example : human_size 1536 = .ok "1.5 KB" := rfl
example : human_size (-1) = .error "math domain error" := rfl
example : posixPathName "/etc/passwd" = "passwd" := by decide
example : posixPathName "a/b/" = "b" := by decide
example : posixPathName ".." = ".." := by decide
example : posixPathName "." = "" := by decide
example : posixPathName "a/.." = ".." := by decide
example : sanitize_filename 7 "../../etc/passwd" = "passwd" := by decide
example : sanitize_filename 7 "my file.mp4" = "my_file.mp4" := by decide
example : sanitize_filename 7 "" = "file_7" := by decide
example : sanitize_filename 7 ".." = ".." := by decide
example : resolvesAtUploadSite "s3_client" = false := by decide
example : resolvesAtUploadSite "config" = true := by decide
example : formatOneDec 0 = "0.0" := by decide

/-! # Claims -/

/-- C4: the claim says that a configuration missing a mandatory credential
or bucket value makes startup fail fast with a *non-zero* process exit.
The code is wrong: `validate_config` does raise `ValueError` and the bot
never starts, but `main` (bot.py lines 410-418) catches every exception,
logs `Fatal error`, and returns normally, so the process exits with
status 0 on every path.  This theorem evaluates the model on any deficient
configuration: validation fails and the bot does not start — but the exit
status is 0, not non-zero. -/
theorem C4_startup_exit_status (c : Config) (ro : RunOutcome)
    (h : missingAttrs c ≠ []) :
    validate_config c =
      .error ("Missing configuration: " ++ String.intercalate ", " (missingAttrs c)) ∧
    botStarts c ro = false ∧ mainExitStatus c ro = 0 := by
  have hv : validate_config c =
      .error ("Missing configuration: " ++ String.intercalate ", " (missingAttrs c)) := by
    unfold validate_config
    rw [if_pos h]
  refine ⟨hv, ?_, ?_⟩
  · unfold botStarts mainRun
    rw [hv]
  · unfold mainExitStatus mainRun
    rw [hv]

/-- Witness for C4: with every environment variable unset, validation fails,
the bot does not start, and the process still exits with status 0. -/
theorem C4_witness :
    validate_config emptyEnvConfig =
      .error ("Missing configuration: " ++
        String.intercalate ", " (missingAttrs emptyEnvConfig)) ∧
    botStarts emptyEnvConfig .normal = false ∧
    mainExitStatus emptyEnvConfig .normal = 0 :=
  C4_startup_exit_status emptyEnvConfig .normal (by decide)

/-- C5: the claim says the sanitizer never returns a name containing the
substring `".."`.  The code is wrong (it contradicts the function's own
docstring, which promises to prevent path traversal): `pathlib` keeps
`".."` as a path component and `'.'` is in the kept character class, so
`sanitize_filename` maps the input `".."` to `".."` itself, which joined
under the per-user staging directory names its parent.  The result does
still contain no path separator and is not absolute. -/
theorem C5_sanitize_dotdot :
    sanitize_filename 0 ".." = ".." ∧
    hasDotDot (sanitize_filename 0 "..") = true ∧
    hasPathSep (sanitize_filename 0 "..") = false ∧
    isAbsolutePath (sanitize_filename 0 "..") = false := by decide

/-- C6 counterexample: the claim says every input `≤ 0` yields `"0B"`
without raising; but `human_size (-1)` falls past the `if not size_bytes`
guard into `math.log`, which raises `ValueError: math domain error`. -/
theorem C6_counterexample :
    human_size (-1) = .error "math domain error" ∧
    human_size (-1) ≠ .ok "0B" := by
  refine ⟨rfl, fun hc => ?_⟩
  rw [show human_size (-1) = .error "math domain error" from rfl] at hc
  exact Except.noConfusion hc

/-- C6 amended: `human_size 0 = "0B"` holds, but every *negative* input
raises `ValueError` from `math.log` instead of being treated as 0. -/
theorem C6_amended :
    human_size 0 = .ok "0B" ∧
    ∀ n : Int, n < 0 → human_size n = .error "math domain error" := by
  refine ⟨rfl, fun n hn => ?_⟩
  unfold human_size
  rw [if_neg (by omega), if_pos hn]

/-- Witness for C6 amended: evaluated at the concrete input `-2`. -/
theorem C6_witness : human_size (-2) = .error "math domain error" :=
  C6_amended.2 (-2) (by norm_num)

/-- C9: a submission whose declared size exceeds `config.MAX_FILE_SIZE` is
rejected with the size-limit reply before any task is created or registered
(the registry is returned unchanged), and a declared size within the limit
passes this check (it is never rejected as too large). -/
theorem C9_size_check (c : Config) (tasks : List Nat) (owner size : Nat) :
    (size > c.MAX_FILE_SIZE →
      file_handler_check c tasks owner size = (.tooLarge, tasks)) ∧
    (size ≤ c.MAX_FILE_SIZE →
      (file_handler_check c tasks owner size).1 ≠ .tooLarge) := by
  constructor
  · intro h
    unfold file_handler_check
    rw [if_pos h]
  · intro h
    unfold file_handler_check
    rw [if_neg (by omega)]
    split <;> simp

/-- Witness for C9: a 5 GiB submission against the default 4 GiB limit is
rejected with TooLarge and the registry is untouched. -/
theorem C9_witness :
    file_handler_check (mkConfig 1 "h" "t" "ak" "sk" "bkt") [] 42
      (5 * 1024 * 1024 * 1024) = (.tooLarge, []) :=
  (C9_size_check (mkConfig 1 "h" "t" "ak" "sk" "bkt") [] 42
    (5 * 1024 * 1024 * 1024)).1 (by decide)

/-- C7 counterexample: the claim says *every* second submission while a job
is active is rejected with AlreadyActive; but the size check precedes the
active-job check (bot.py line 236 before line 243), so a second submission
of an oversized file by an owner with an active job is rejected with
TooLarge instead. -/
theorem C7_counterexample :
    (1 : Nat) ∈ [1] ∧
    (file_handler_check (mkConfig 1 "h" "t" "ak" "sk" "bkt") [1] 1
      (5 * 1024 * 1024 * 1024)).1 = .tooLarge ∧
    SubmitResult.tooLarge ≠ SubmitResult.alreadyActive := by decide

/-- C7 amended: a second submission *whose declared size is within the
limit* while a prior job of the same owner is active is rejected with
AlreadyActive, the registry is unchanged, and it still holds exactly one
entry for that owner. -/
theorem C7_amended (c : Config) (tasks : List Nat) (owner size : Nat)
    (hactive : tasks.count owner = 1) (hsize : size ≤ c.MAX_FILE_SIZE) :
    file_handler_check c tasks owner size = (.alreadyActive, tasks) ∧
    ((file_handler_check c tasks owner size).2).count owner = 1 := by
  have hmem : owner ∈ tasks := by
    by_contra hn
    rw [List.count_eq_zero_of_not_mem hn] at hactive
    omega
  have h1 : file_handler_check c tasks owner size = (.alreadyActive, tasks) := by
    unfold file_handler_check
    rw [if_neg (by omega), if_pos hmem]
  exact ⟨h1, by rw [h1]; exact hactive⟩

/-- Witness for C7 amended: owner 7 with an active job submits a 100-byte
file and is rejected with AlreadyActive, keeping one registry entry. -/
theorem C7_witness :
    file_handler_check (mkConfig 1 "h" "t" "ak" "sk" "bkt") [7] 7 100 =
      (.alreadyActive, [7]) :=
  (C7_amended (mkConfig 1 "h" "t" "ak" "sk" "bkt") [7] 7 100 (by decide)
    (by decide)).1

/-- C3: the claim says a call to the progress reporter pushes an update iff
at least 1.5 s passed since the last emitted update or `current = total`,
the terminal `current == total` report always included.  The intent is right
(the function's own docstring and comments promise rate-limited updates) but
the code is broken: `self.progress_bar` is a fresh bound-method object at
every access, so the `hasattr` test at bot.py line 131 is always false and
the attribute assignment at line 132 raises `AttributeError` — swallowed by
the catch-all at line 169 — before the throttle or the edit ever run.  On
*every* call, the terminal one included, nothing is attempted, nothing is
pushed, and no timestamp is recorded; in particular the always-emitted
terminal report that the claim promises never happens. -/
theorem C3_progress_never_pushed (lu : Nat → Rat) (chat : Nat) (now : Rat)
    (current total : Nat) (editOk : Bool) :
    (progress_bar lu chat now current total editOk).attempted = false ∧
    (progress_bar lu chat now current total editOk).pushed = false ∧
    (progress_bar lu chat now current total editOk).last_update = lu :=
  ⟨rfl, rfl, rfl⟩

/-- The `except` handler leaves the status history untouched. -/
theorem exceptHandler_statusHistory (env : JobEnv) (e : PyExc) (onDisk : Bool)
    (hist : List Status) (ew pr : Nat) :
    (exceptHandler env e onDisk hist ew pr).statusHistory = hist := by
  unfold exceptHandler
  cases env.errorEditFails <;> rfl

/-- The `except` handler does not write the `elapsed` field. -/
theorem exceptHandler_elapsedWrites (env : JobEnv) (e : PyExc) (onDisk : Bool)
    (hist : List Status) (ew pr : Nat) :
    (exceptHandler env e onDisk hist ew pr).elapsedWrites = ew := by
  unfold exceptHandler
  cases env.errorEditFails <;> rfl

/-- C10: on every run, whatever the collaborator outcomes, the owner's
status record is only ever the initial record or the initial record with
`elapsed` overwritten (written at most once, after the download): the
`progress` and `speed` fields keep their initial values `0` and `"0B/s"`,
so a `/status` query during the job always renders progress `0.0%` and the
initial speed string, regardless of the bytes actually transferred. -/
theorem mem_single_elim {α : Type} {P : α → Prop} {a : α} (ha : P a) :
    ∀ x ∈ [a], P x := by
  intro x hx
  cases hx with
  | head => exact ha
  | tail _ hx => cases hx

theorem mem_pair_elim {α : Type} {P : α → Prop} {a b : α} (ha : P a) (hb : P b) :
    ∀ x ∈ [a, b], P x := by
  intro x hx
  cases hx with
  | head => exact ha
  | tail _ hx =>
    cases hx with
    | head => exact hb
    | tail _ hx => cases hx

theorem C10_status_frame (env : JobEnv) (startTime dlTime : Rat)
    (sf fp : String) :
    (∀ st ∈ (process_upload env startTime dlTime sf fp).statusHistory,
        st.progress = 0 ∧ st.speed = "0B/s" ∧ formatOneDec st.progress = "0.0") ∧
    (process_upload env startTime dlTime sf fp).elapsedWrites ≤ 1 := by
  obtain ⟨ir, df, fl, ue, ee, fe⟩ := env
  constructor
  · cases ir <;> cases df <;> cases ue <;> cases ee <;>
      first
        | exact mem_single_elim
            ⟨rfl, rfl, (by decide : formatOneDec 0 = "0.0")⟩
        | exact mem_pair_elim
            ⟨rfl, rfl, (by decide : formatOneDec 0 = "0.0")⟩
            ⟨rfl, rfl, (by decide : formatOneDec 0 = "0.0")⟩
  · cases ir <;> cases df <;> cases ue <;> cases ee <;>
      first
        | exact Nat.le_refl 1
        | exact Nat.zero_le 1

/-- Witness for C10: on the all-success run the initial status record is in
the history and reports progress `0.0` and speed `0B/s`. -/
theorem C10_witness :
    (initStatus "a.mp4" "downloads/1/a.mp4" 0).progress = 0 ∧
    (initStatus "a.mp4" "downloads/1/a.mp4" 0).speed = "0B/s" ∧
    formatOneDec (initStatus "a.mp4" "downloads/1/a.mp4" 0).progress = "0.0" :=
  (C10_status_frame allOkEnv 0 1 "a.mp4" "downloads/1/a.mp4").1
    (initStatus "a.mp4" "downloads/1/a.mp4" 0) (by decide)

/-- C1: the claim says an accepted submission whose download succeeds moves
Downloading→Uploading→LinkIssued→Completed with no error on the success
path.  The code is wrong (the spec itself flags the latent bug, and the
class stores its store client in `self.s3_client`): the upload call at
bot.py line 325 reads the bare name `s3_client`, which resolves in neither
the function's locals, nor the module globals, nor the builtins, so every
run that reaches the upload step raises `NameError` and lands in the Failed
path — the job can never reach Completed. -/
theorem C1_upload_nameError (env : JobEnv) (startTime dlTime : Rat)
    (sf fp : String) (h1 : env.initialReplyFails = false)
    (h2 : env.downloadFails = none) (h3 : env.uploadEditFails = none) :
    (process_upload env startTime dlTime sf fp).phaseReached = .failed ∧
    (process_upload env startTime dlTime sf fp).result ≠ .ok () ∧
    (env.errorEditFails = none →
      (process_upload env startTime dlTime sf fp).result =
        .error (.nameError "s3_client")) := by
  obtain ⟨ir, df, fl, ue, ee, fe⟩ := env
  have h1' : ir = false := h1
  have h2' : df = none := h2
  have h3' : ue = none := h3
  subst h1'
  subst h2'
  subst h3'
  cases ee with
  | none =>
    exact ⟨rfl, fun hc => Except.noConfusion hc, fun _ => rfl⟩
  | some e2 =>
    exact ⟨rfl, fun hc => Except.noConfusion hc, fun hc => Option.noConfusion hc⟩

/-- Witness for C1: the run with every collaborator call succeeding fails
with the `s3_client` NameError instead of completing. -/
theorem C1_witness :
    (process_upload allOkEnv 0 1 "a.mp4" "downloads/1/a.mp4").result =
      .error (.nameError "s3_client") ∧
    (process_upload allOkEnv 0 1 "a.mp4" "downloads/1/a.mp4").phaseReached =
      .failed :=
  ⟨(C1_upload_nameError allOkEnv 0 1 "a.mp4" "downloads/1/a.mp4"
      rfl rfl rfl).2.2 rfl,
   (C1_upload_nameError allOkEnv 0 1 "a.mp4" "downloads/1/a.mp4"
      rfl rfl rfl).1⟩

/-- C2: the claim says the staging-file removal happens exactly once on
every exit path, leaving no file on disk in any terminal state.  The code
is wrong: in the `except` handler of `process_upload` (bot.py lines
384-392) the error-message edit runs *before* `os.remove`, and a failure of
that edit (a `NotifierError` the design says must never escalate) aborts
the handler, so the staged file is removed zero times and remains on disk
while the job terminates Failed; the registry entries are still removed by
the `finally` block. -/
theorem C2_cleanup_skipped :
    (file_handler_run C2FailingEnv 0 1 "a.mp4" "downloads/1/a.mp4").upload.fileRemovals
      = 0 ∧
    (file_handler_run C2FailingEnv 0 1 "a.mp4" "downloads/1/a.mp4").upload.fileOnDisk
      = true ∧
    (file_handler_run C2FailingEnv 0 1 "a.mp4" "downloads/1/a.mp4").upload.phaseReached
      = .failed ∧
    (file_handler_run C2FailingEnv 0 1 "a.mp4" "downloads/1/a.mp4").taskRemovals = 1 ∧
    (file_handler_run C2FailingEnv 0 1 "a.mp4" "downloads/1/a.mp4").statusRemovals = 1 :=
  ⟨rfl, rfl, rfl, rfl, rfl⟩

/-! ### Decimal renderings are injective (towards C8) -/

theorem decVal_foldl_acc (cs : List Char) (a : Nat) :
    cs.foldl (fun a c => 10 * a + (c.toNat - 48)) a
      = a * 10 ^ cs.length + decVal cs := by
  induction cs generalizing a with
  | nil => simp [decVal]
  | cons c t ih =>
    simp only [List.foldl_cons, decVal, List.length_cons]
    rw [ih (10 * a + (c.toNat - 48)), ih (10 * 0 + (c.toNat - 48))]
    ring

theorem decVal_cons (c : Char) (t : List Char) :
    decVal (c :: t) = (c.toNat - 48) * 10 ^ t.length + decVal t := by
  show List.foldl _ (10 * 0 + (c.toNat - 48)) t = _
  rw [decVal_foldl_acc]
  ring

theorem digitChar_val (m : Nat) (h : m < 10) :
    (Nat.digitChar m).toNat - 48 = m := by
  interval_cases m <;> decide

theorem digitChar_isDigit (m : Nat) (h : m < 10) :
    (Nat.digitChar m).isDigit = true := by
  interval_cases m <;> decide

theorem decVal_toDigitsCore (fuel : Nat) :
    ∀ (n : Nat) (ds : List Char), n < 10 ^ fuel →
      decVal (Nat.toDigitsCore 10 fuel n ds) = n * 10 ^ ds.length + decVal ds := by
  induction fuel with
  | zero =>
    intro n ds h
    have hn : n = 0 := by simpa using h
    subst hn
    simp [Nat.toDigitsCore]
  | succ fuel ih =>
    intro n ds h
    simp only [Nat.toDigitsCore]
    by_cases h0 : n / 10 = 0
    · rw [if_pos h0, decVal_cons, digitChar_val _ (Nat.mod_lt _ (by norm_num))]
      have hn : n % 10 = n := by omega
      rw [hn]
    · rw [if_neg h0]
      have hlt : n / 10 < 10 ^ fuel := by
        rw [Nat.div_lt_iff_lt_mul (by norm_num : (0 : Nat) < 10)]
        calc n < 10 ^ (fuel + 1) := h
          _ = 10 ^ fuel * 10 := by ring
      rw [ih (n / 10) (Nat.digitChar (n % 10) :: ds) hlt,
        decVal_cons, digitChar_val _ (Nat.mod_lt _ (by norm_num))]
      simp only [List.length_cons, Nat.pow_succ]
      conv_rhs => rw [← Nat.div_add_mod n 10]
      ring

theorem decVal_toDigits (n : Nat) : decVal (Nat.toDigits 10 n) = n := by
  have hb : n < 10 ^ (n + 1) := by
    have h1 : n < 10 ^ n := Nat.lt_pow_self (by norm_num) n
    have h2 : (10 : Nat) ^ n ≤ 10 ^ (n + 1) :=
      Nat.pow_le_pow_right (by norm_num) (Nat.le_succ n)
    omega
  unfold Nat.toDigits
  rw [decVal_toDigitsCore (n + 1) n [] hb]
  simp [decVal]

theorem toDigits_inj (m n : Nat) (h : Nat.toDigits 10 m = Nat.toDigits 10 n) :
    m = n := by
  have hv := congrArg decVal h
  rwa [decVal_toDigits, decVal_toDigits] at hv

theorem toDigitsCore_digits (fuel : Nat) :
    ∀ (n : Nat) (ds : List Char), (∀ c ∈ ds, c.isDigit = true) →
      ∀ c ∈ Nat.toDigitsCore 10 fuel n ds, c.isDigit = true := by
  induction fuel with
  | zero =>
    intro n ds hds
    simpa [Nat.toDigitsCore] using hds
  | succ fuel ih =>
    intro n ds hds c hc
    simp only [Nat.toDigitsCore] at hc
    by_cases h0 : n / 10 = 0
    · rw [if_pos h0] at hc
      rcases List.mem_cons.mp hc with h | h
      · subst h
        exact digitChar_isDigit _ (Nat.mod_lt _ (by norm_num))
      · exact hds c h
    · rw [if_neg h0] at hc
      refine ih (n / 10) (Nat.digitChar (n % 10) :: ds) ?_ c hc
      intro x hx
      rcases List.mem_cons.mp hx with h | h
      · subst h
        exact digitChar_isDigit _ (Nat.mod_lt _ (by norm_num))
      · exact hds x h

theorem toDigits_digits (n : Nat) : ∀ c ∈ Nat.toDigits 10 n, c.isDigit = true :=
  toDigitsCore_digits (n + 1) n [] (by intro c hc; cases hc)

theorem slash_not_mem_toDigits (n : Nat) : '/' ∉ Nat.toDigits 10 n := by
  intro hm
  have hd := toDigits_digits n _ hm
  exact absurd hd (by decide)

theorem underscore_not_mem_toDigits (n : Nat) : '_' ∉ Nat.toDigits 10 n := by
  intro hm
  have hd := toDigits_digits n _ hm
  exact absurd hd (by decide)

theorem append_sep_inj (sep : Char) :
    ∀ (a1 a2 b1 b2 : List Char), sep ∉ a1 → sep ∉ a2 →
      a1 ++ sep :: b1 = a2 ++ sep :: b2 → a1 = a2 ∧ b1 = b2 := by
  intro a1
  induction a1 with
  | nil =>
    intro a2 b1 b2 h1 h2 heq
    cases a2 with
    | nil => simpa using heq
    | cons x xs =>
      simp only [List.nil_append, List.cons_append, List.cons.injEq] at heq
      have hm : sep ∈ x :: xs := by
        rw [heq.1]
        exact List.mem_cons_self x xs
      exact absurd hm h2
  | cons y ys ih =>
    intro a2 b1 b2 h1 h2 heq
    cases a2 with
    | nil =>
      simp only [List.cons_append, List.nil_append, List.cons.injEq] at heq
      have hm : sep ∈ y :: ys := by
        rw [← heq.1]
        exact List.mem_cons_self y ys
      exact absurd hm h1
    | cons x xs =>
      simp only [List.cons_append, List.cons.injEq] at heq
      have h1' : sep ∉ ys := fun hm => h1 (List.mem_cons_of_mem y hm)
      have h2' : sep ∉ xs := fun hm => h2 (List.mem_cons_of_mem x hm)
      obtain ⟨he, hb⟩ := ih xs b1 b2 h1' h2' heq.2
      exact ⟨by rw [heq.1, he], hb⟩

theorem toString_nat_data (n : Nat) : (toString n).data = Nat.toDigits 10 n := rfl

theorem s3_key_data (u t : Nat) (n : String) :
    (s3_key u t n).data =
      Nat.toDigits 10 u ++ '/' :: (Nat.toDigits 10 t ++ '_' :: n.data) := by
  simp only [s3_key, String.data_append, toString_nat_data]
  simp [List.append_assoc]

/-- C8 counterexample: the claim says the object key is unique per upload
attempt; but two distinct attempts by the same owner with the same sanitized
filename whose keys are built in the same integer second receive identical
keys (the second upload overwrites the first object). -/
theorem C8_counterexample :
    (⟨1, 100, "file.mp4", 0⟩ : UploadAttempt) ≠
      (⟨1, 100, "file.mp4", 1⟩ : UploadAttempt) ∧
    attemptKey ⟨1, 100, "file.mp4", 0⟩ = attemptKey ⟨1, 100, "file.mp4", 1⟩ :=
  ⟨by decide, rfl⟩

/-- C8 amended: the key `owner/ts_name` is unique per (owner id, integer
second, sanitized filename) triple — not per attempt: two keys coincide
exactly when the owner, the timestamp second, and the sanitized filename all
coincide.  (The owner's decimal digits contain no `/`, and the timestamp's
digits contain no `_`, so the key parses back to the triple.) -/
theorem C8_amended (a b : UploadAttempt) :
    attemptKey a = attemptKey b ↔
      (a.user_id = b.user_id ∧ a.ts = b.ts ∧ a.safe_filename = b.safe_filename) := by
  constructor
  · intro h
    have hd := congrArg String.data h
    rw [attemptKey, attemptKey, s3_key_data, s3_key_data] at hd
    obtain ⟨h1, h2⟩ := append_sep_inj '/' _ _ _ _
      (slash_not_mem_toDigits a.user_id) (slash_not_mem_toDigits b.user_id) hd
    obtain ⟨h3, h4⟩ := append_sep_inj '_' _ _ _ _
      (underscore_not_mem_toDigits a.ts) (underscore_not_mem_toDigits b.ts) h2
    exact ⟨toDigits_inj _ _ h1, toDigits_inj _ _ h3, String.ext h4⟩
  · rintro ⟨h1, h2, h3⟩
    rw [attemptKey, attemptKey, h1, h2, h3]

end Bot
